import Mathlib

/-!
Shallow embedding of the Searchly provider-abstraction layer.

Each definition below mirrors one function or class of the repository:

* `Json`, `HttpResponse` model the parsed JSON bodies and HTTP responses
  the adapters receive from their transport collaborator.
* `tavily_search_classify` / `tavily_extract_classify` embed the HTTP status
  handling of `AsyncTavilyClient._search` / `_extract` (src/searchly/tavily.py).
* `get_max_items_from_list`, `get_search_context`, `get_company_info` embed the
  Tavily helper operations of the same file.
* `mkTavilyClient`, `mkYouClient`, `mkKagiClient`, `mkSerpAPIClient` embed the
  adapter constructors (credential resolution and failure).
* `you_search` embeds `AsyncYouClient.search` (offset validation and request
  building), `serpapi_search_params` the parameter mapping of
  `AsyncSerpAPIClient.search`.
* The `...Config` structures and their `is_configured` / `get_provider`
  functions embed src/searchly/config.py.  Environment access (`os.getenv`)
  is modelled by an explicit environment map `Env`.
-/

namespace Searchly

/-- Parsed JSON values, as returned by the HTTP transport collaborator. -/
inductive Json where
  | null
  | bool (b : Bool)
  | num (n : Int)
  | str (s : String)
  | arr (elems : List Json)
  | obj (fields : List (String × Json))

/-- Dictionary lookup on a JSON object; `none` models a `KeyError`
(or indexing a non-object). -/
def Json.lookup : Json → String → Option Json
  | .obj fields, key => fields.lookup key
  | _, _ => none

/-- An HTTP response: status code plus parsed JSON body. -/
structure HttpResponse where
  status : Nat
  body : Json

/-- Environment-variable map, modelling `os.getenv`. -/
abbrev Env := String → Option String

/-- The exceptions that can escape the Tavily client methods:
MissingAPIKeyError, InvalidAPIKeyError, UsageLimitExceededError and
BadRequestError from `searchly.exceptions`, the generic `httpx` status
error raised by `response.raise_for_status()`, and the unhandled Python
`TypeError` raised by subscripting a non-dict in the `_extract` 400 branch
(where only `KeyError` is suppressed). -/
inductive TavilyError where
  | missingAPIKey
  | invalidAPIKey
  | usageLimitExceeded (detail : Json)
  | badRequest (detail : Json)
  | httpStatusError (status : Nat)
  | typeError

/-- Outcome of a Python string-key subscript on a parsed JSON value: the
value when the receiver is a dict holding the key, a `KeyError` when the
receiver is a dict without the key, and a `TypeError` when the receiver is
not a dict. -/
inductive PySubscript where
  | found (v : Json)
  | keyError
  | typeError

/-- Python string-key subscript on a parsed JSON value. -/
def Json.pyGetItem : Json → String → PySubscript
  | .obj fields, key =>
    match fields.lookup key with
    | some v => .found v
    | none => .keyError
  | _, _ => .typeError

/-- The extraction of the `detail.error` path of a response body as used by
the 429 branches, where `contextlib.suppress(Exception)` swallows every
failure: `none` when the path does not yield a value for any reason. -/
def tavily_detail_error (body : Json) : Option Json :=
  (body.lookup "detail").bind (fun d => d.lookup "error")

/-- Status classification of `AsyncTavilyClient._search`
(src/searchly/tavily.py lines 109-123): 200 returns the body, 429 raises
UsageLimitExceededError with `detail.error` when present (else the generic
message), 401 raises InvalidAPIKeyError, any other non-2xx raises via
`raise_for_status`, remaining 2xx return the body. -/
def tavily_search_classify (resp : HttpResponse) : Except TavilyError Json :=
  if resp.status = 200 then .ok resp.body
  else if resp.status = 429 then
    .error (.usageLimitExceeded
      ((tavily_detail_error resp.body).getD (.str "Too many requests.")))
  else if resp.status = 401 then .error .invalidAPIKey
  else if 200 ≤ resp.status ∧ resp.status < 300 then .ok resp.body
  else .error (.httpStatusError resp.status)

/-- Status classification of `AsyncTavilyClient._extract`
(src/searchly/tavily.py lines 168-187): like `_search` but with an extra
400 branch raising BadRequestError, checked before 401/429.  The 400 branch
wraps the `detail.error` lookup in `contextlib.suppress(KeyError)`: a
`KeyError` (dict missing the key) keeps the generic default message, but a
`TypeError` (subscripting a non-dict body or non-dict detail) is not
suppressed and propagates instead of BadRequestError. -/
def tavily_extract_classify (resp : HttpResponse) : Except TavilyError Json :=
  if resp.status = 200 then .ok resp.body
  else if resp.status = 400 then
    match resp.body.pyGetItem "detail" with
    | .typeError => .error .typeError
    | .keyError =>
      .error (.badRequest (.str "Bad request. The request was invalid or cannot be served."))
    | .found d =>
      match d.pyGetItem "error" with
      | .typeError => .error .typeError
      | .keyError =>
        .error (.badRequest (.str "Bad request. The request was invalid or cannot be served."))
      | .found v => .error (.badRequest v)
  else if resp.status = 401 then .error .invalidAPIKey
  else if resp.status = 429 then
    .error (.usageLimitExceeded
      ((tavily_detail_error resp.body).getD (.str "Too many requests.")))
  else if 200 ≤ resp.status ∧ resp.status < 300 then .ok resp.body
  else .error (.httpStatusError resp.status)

/-- State of a constructed `AsyncTavilyClient`: headers, base URL, fixed
timeout, configured company-info topics. -/
structure TavilyClient where
  headers : List (String × String)
  base_url : String
  timeout : Nat
  company_info_tags : List String
deriving Repr, DecidableEq

/-- Default `company_info_tags` of `AsyncTavilyClient.__init__`. -/
def tavilyDefaultTags : List String := ["news", "general", "finance"]

/-- Constructor of `AsyncTavilyClient` (src/searchly/tavily.py lines 52-76):
an explicit `None` key falls back to the TAVILY_API_KEY environment
variable; a falsy resolved key (absent or empty) raises
MissingAPIKeyError at construction time. -/
def mkTavilyClient (api_key : Option String) (company_info_tags : List String)
    (env : Env) : Except TavilyError TavilyClient :=
  let key := match api_key with
    | none => env "TAVILY_API_KEY"
    | some s => some s
  match key with
  | none => .error .missingAPIKey
  | some k =>
    if k = "" then .error .missingAPIKey
    else .ok
      { headers := [("Content-Type", "application/json"),
                    ("Authorization", "Bearer " ++ k)]
        base_url := "https://api.tavily.com"
        timeout := 180
        company_info_tags := company_info_tags }

/-- Errors raised by the You.com client: plain `ValueError`s carrying a
message (both the missing-key and the offset-validation failures). -/
inductive YouError where
  | valueError (msg : String)
deriving Repr, DecidableEq

/-- State of a constructed `AsyncYouClient`. -/
structure YouClient where
  api_key : String
  base_url : String
deriving Repr, DecidableEq

/-- Default `base_url` of `AsyncYouClient.__init__`
(src/searchly/providers/you_provider/you.py line 128). -/
def youDefaultBaseUrl : String := "https://ydc-index.io"

/-- Python string-or fallback `a or b` for an optional string: an empty
explicit string is falsy and falls through. -/
def pyOrElse (explicit : Option String) (fallback : Option String) : Option String :=
  match explicit with
  | some s => if s = "" then fallback else some s
  | none => fallback

/-- Constructor of `AsyncYouClient` (you.py lines 124-141):
`api_key or os.getenv("YOU_API_KEY")`, then a falsy resolved key raises
`ValueError` at construction time. -/
def mkYouClient (api_key : Option String) (base_url : String)
    (env : Env) : Except YouError YouClient :=
  match pyOrElse api_key (env "YOU_API_KEY") with
  | none => .error (.valueError "No API key provided. Set YOU_API_KEY env var or pass api_key")
  | some k =>
    if k = "" then
      .error (.valueError "No API key provided. Set YOU_API_KEY env var or pass api_key")
    else .ok { api_key := k, base_url := base_url }

/-- Errors raised by the Kagi client constructor (`ValueError`). -/
inductive KagiError where
  | valueError (msg : String)
deriving Repr, DecidableEq

/-- State of a constructed `AsyncKagiClient`. -/
structure KagiClient where
  api_key : String
  base_url : String
deriving Repr, DecidableEq

/-- Default `base_url` of `AsyncKagiClient.__init__`
(src/searchly/providers/kagi_provider/client.py line 34). -/
def kagiDefaultBaseUrl : String := "https://kagi.com/api/v0"

/-- Constructor of `AsyncKagiClient` (client.py lines 30-51):
`api_key or os.getenv("KAGI_API_KEY")`, a falsy resolved key raises
`ValueError` at construction time. -/
def mkKagiClient (api_key : Option String) (base_url : String)
    (env : Env) : Except KagiError KagiClient :=
  match pyOrElse api_key (env "KAGI_API_KEY") with
  | none => .error (.valueError "No API key provided. Set KAGI_API_KEY env var or pass api_key")
  | some k =>
    if k = "" then
      .error (.valueError "No API key provided. Set KAGI_API_KEY env var or pass api_key")
    else .ok { api_key := k, base_url := base_url }

/-- Errors raised by the SerpAPI client constructor (`ValueError`). -/
inductive SerpAPIError where
  | valueError (msg : String)
deriving Repr, DecidableEq

/-- State of a constructed `AsyncSerpAPIClient`. -/
structure SerpAPIClient where
  api_key : String
deriving Repr, DecidableEq

/-- Constructor of `AsyncSerpAPIClient` (src/searchly/serpapi.py lines 35-48):
`api_key or os.getenv("SERPAPI_KEY")`, a falsy resolved key raises
`ValueError` at construction time. -/
def mkSerpAPIClient (api_key : Option String)
    (env : Env) : Except SerpAPIError SerpAPIClient :=
  match pyOrElse api_key (env "SERPAPI_KEY") with
  | none => .error (.valueError "No API key provided. Set SERPAPI_KEY env var or pass api_key")
  | some k =>
    if k = "" then
      .error (.valueError "No API key provided. Set SERPAPI_KEY env var or pass api_key")
    else .ok { api_key := k }

/-- Query-parameter values sent by the You.com client. -/
inductive YouParam where
  | str (s : String)
  | int (n : Int)
deriving Repr, DecidableEq

/-- An HTTP GET request as issued through `anyenv.get_json`. -/
structure YouRequest where
  url : String
  headers : List (String × String)
  params : List (String × YouParam)
deriving Repr, DecidableEq

/-- The search endpoint URL built by `AsyncYouClient.search` (you.py
line 201). -/
def youSearchUrl (client : YouClient) : String :=
  client.base_url ++ "/v1/search"

/-- `AsyncYouClient.search` (you.py lines 143-203): validates
`0 <= offset <= 9` before anything else (raising `ValueError` without
touching the network, modelled by the `transport` oracle being consulted
only in the other branch), then builds the query parameters and issues one
GET request. -/
def you_search (client : YouClient) (transport : YouRequest → Json)
    (query : String) (count : Int) (offset : Int)
    (country language : Option String) (safesearch : String)
    (freshness livecrawl livecrawl_formats : Option String) :
    Except YouError Json :=
  if ¬ (0 ≤ offset ∧ offset ≤ 9) then
    .error (.valueError "offset must be between 0 and 9")
  else
    let strOptParam := fun (key : String) (v : Option String) =>
      match v with
      | some s => if s = "" then ([] : List (String × YouParam)) else [(key, .str s)]
      | none => []
    let params : List (String × YouParam) :=
      [("query", .str query), ("count", .int count),
       ("offset", .int offset), ("safesearch", .str safesearch)]
      ++ strOptParam "country" country
      ++ strOptParam "language" language
      ++ strOptParam "freshness" freshness
      ++ strOptParam "livecrawl" livecrawl
      ++ strOptParam "livecrawl_formats" livecrawl_formats
    .ok (transport
      { url := youSearchUrl client
        headers := [("X-API-Key", client.api_key)]
        params := params })

/-- Modelled from the spec: `searchly/base.py` is not under src/.  Unified
web search result: title, url, snippet (spec section 3). -/
structure WebSearchResult where
  title : String
  url : String
  snippet : String
deriving Repr, DecidableEq

/-- Modelled from the spec: `searchly/base.py` is not under src/.  Unified
web search response: ordered sequence of results. -/
structure WebSearchResponse where
  results : List WebSearchResult
deriving Repr, DecidableEq

/-- Modelled from the spec: `searchly/base.py` is not under src/.  Unified
news search result with pass-through `published` timestamp. -/
structure NewsSearchResult where
  title : String
  url : String
  snippet : String
  published : Option String
deriving Repr, DecidableEq

/-- Modelled from the spec: `searchly/base.py` is not under src/.  Unified
news search response. -/
structure NewsSearchResponse where
  results : List NewsSearchResult
deriving Repr, DecidableEq

/-- A raw item of the Kagi response `data` array, with the fields the
adapter reads; each is optional (`item.get(...)`). -/
structure KagiItem where
  title : Option String
  url : Option String
  snippet : Option String
  published : Option String
deriving Repr, DecidableEq

/-- Python truthiness of an optional string: `None` and the empty string are
falsy. -/
def pyTruthy : Option String → Bool
  | some s => !(s = "")
  | none => false

/-- Python `value or ""` on an optional string field. -/
def pyOrEmpty : Option String → String
  | some s => if s = "" then "" else s
  | none => ""

/-- Response normalization of `AsyncKagiClient.web_search` (client.py lines
88-97): keep items whose `url` is truthy, map each to the unified result
with `or ""` defaults, then truncate to `max_results`. -/
def kagi_web_search_results (data : List KagiItem) (max_results : Nat) :
    WebSearchResponse :=
  { results :=
      ((data.filter (fun item => pyTruthy item.url)).map (fun item =>
        WebSearchResult.mk (pyOrEmpty item.title) (pyOrEmpty item.url)
          (pyOrEmpty item.snippet))).take max_results }

/-- Response normalization of `AsyncKagiClient.news_search` (client.py lines
135-145): same filter and truncation, with `published` passed through. -/
def kagi_news_search_results (data : List KagiItem) (max_results : Nat) :
    NewsSearchResponse :=
  { results :=
      ((data.filter (fun item => pyTruthy item.url)).map (fun item =>
        NewsSearchResult.mk (pyOrEmpty item.title) (pyOrEmpty item.url)
          (pyOrEmpty item.snippet) item.published)).take max_results }

/-- A Tavily search result item as consumed by `get_search_context` and
`get_company_info`: url, content and a numeric relevance score. -/
structure TavilyResult where
  url : String
  content : String
  score : Int
deriving Repr, DecidableEq

/-- A context item built by `get_search_context`: the url/content projection
of a source item. -/
structure ContextItem where
  url : String
  content : String
deriving Repr, DecidableEq

/-- JSON serialization of one context item, as `json.dumps` renders the
two-field dict. -/
def dumpsContextItem (item : ContextItem) : String :=
  "\x7b\"url\": \"" ++ item.url ++ "\", \"content\": \"" ++ item.content ++ "\"\x7d"

/-- JSON serialization of a list of context items, as `json.dumps` renders a
list. -/
def dumpsContextList (items : List ContextItem) : String :=
  "[" ++ String.intercalate ", " (items.map dumpsContextItem) ++ "]"

/-- Loop of `get_max_items_from_list` (src/searchly/tavily.py lines 33-46),
generalized over the injected token counter and serializer: accumulate
items while the running token total stays within `maxTokens`, stopping at
the first item that would exceed it. -/
def get_max_items_go (countTokens : String → Nat) (dumps : α → String)
    (maxTokens : Nat) : List α → Nat → List α
  | [], _ => []
  | item :: rest, current =>
    if current + countTokens (dumps item) > maxTokens then []
    else item :: get_max_items_go countTokens dumps maxTokens rest
      (current + countTokens (dumps item))

/-- `get_max_items_from_list` (src/searchly/tavily.py lines 33-46). -/
def get_max_items_from_list (countTokens : String → Nat) (dumps : α → String)
    (data : List α) (maxTokens : Nat) : List α :=
  get_max_items_go countTokens dumps maxTokens data 0

/-- The url/content projection applied by `get_search_context` to each
source item. -/
def toContextItem (s : TavilyResult) : ContextItem :=
  { url := s.url, content := s.content }

/-- `AsyncTavilyClient.get_search_context` (src/searchly/tavily.py lines
208-247), modulo the HTTP call: given the `results` list of the search
response, project each source to its url/content dict, truncate greedily by
`get_max_items_from_list`, and serialize the kept items as JSON. -/
def get_search_context (countTokens : String → Nat) (sources : List TavilyResult)
    (maxTokens : Nat) : String :=
  let context := sources.map toContextItem
  dumpsContextList (get_max_items_from_list countTokens dumpsContextItem context maxTokens)

/-- Descending-score order used by `get_company_info`
(`sorted(..., key=lambda x: x\x5b"score"\x5d, reverse=True)`). -/
def scoreDesc (a b : TavilyResult) : Prop := b.score ≤ a.score

instance : DecidableRel scoreDesc := fun a b =>
  inferInstanceAs (Decidable (b.score ≤ a.score))

instance : IsTotal TavilyResult scoreDesc :=
  ⟨fun a b => Int.le_total b.score a.score⟩

instance : IsTrans TavilyResult scoreDesc :=
  ⟨fun _ _ _ hab hbc => le_trans hbc hab⟩

/-- `AsyncTavilyClient.get_company_info` (src/searchly/tavily.py lines
276-303), modulo the HTTP fan-out: `respFor` is the oracle giving each
topic's search response (`none` models a response without a `results` key,
which the loop skips); all result lists are concatenated in topic order,
sorted descending by score (Python sort is stable, mirrored by insertion
sort) and truncated to `max_results`. -/
def get_company_info (respFor : String → Option (List TavilyResult))
    (tags : List String) (max_results : Nat) : List TavilyResult :=
  let all_results := (tags.map (fun t => (respFor t).getD [])).flatten
  (List.insertionSort scoreDesc all_results).take max_results

/-- Query-parameter values sent by the SerpAPI client (strings or the
integer `num`). -/
inductive SerpParam where
  | str (s : String)
  | num (n : Nat)
deriving Repr, DecidableEq

/-- The `search_type` argument of `AsyncSerpAPIClient.search`. -/
inductive SerpSearchType where
  | search
  | news
  | images
  | videos
deriving Repr, DecidableEq

/-- Helper for the truthiness-guarded optional parameters of
`AsyncSerpAPIClient.search` (`if country: ...` etc.). -/
def serpOptParam (key : String) (v : Option String) (f : String → SerpParam) :
    List (String × SerpParam) :=
  match v with
  | some s => if s = "" then [] else [(key, f s)]
  | none => []

/-- Parameter building of `AsyncSerpAPIClient.search` (src/searchly/serpapi.py
lines 78-99): `q` and `num` always; `gl`/`hl` lowercased when country and
language are truthy; `location` verbatim when truthy; `safe` as the string
"active" when `safe` is true; finally the engine selected by
`search_type`. -/
def serpapi_search_params (query : String) (search_type : SerpSearchType)
    (country language location : Option String) (safe : Bool)
    (max_results : Nat) : List (String × SerpParam) :=
  [("q", .str query), ("num", .num max_results)]
  ++ serpOptParam "gl" country (fun c => .str c.toLower)
  ++ serpOptParam "hl" language (fun l => .str l.toLower)
  ++ serpOptParam "location" location (fun l => .str l)
  ++ (if safe then [("safe", SerpParam.str "active")] else [])
  ++ [("engine", .str (match search_type with
        | .search => "google"
        | .news => "google_news"
        | .images => "google_images"
        | .videos => "google_videos"))]

/-- `BraveSearchConfig` (src/searchly/config.py lines 43-88). -/
structure BraveSearchConfig where
  api_key : Option String := none
  retries : Nat := 0
  wait_time : Nat := 2
deriving Repr, DecidableEq

/-- `BraveSearchConfig.is_configured` (config.py lines 75-77). -/
def BraveSearchConfig.is_configured (c : BraveSearchConfig) (env : Env) : Bool :=
  c.api_key.isSome || (env "BRAVE_API_KEY").isSome

/-- `DataForSEOConfig` (config.py lines 91-136). -/
structure DataForSEOConfig where
  login : Option String := none
  password : Option String := none
  base_url : String := "https://api.dataforseo.com/v3"
deriving Repr, DecidableEq

/-- `DataForSEOConfig.is_configured` (config.py lines 120-124). -/
def DataForSEOConfig.is_configured (c : DataForSEOConfig) (env : Env) : Bool :=
  (c.login.isSome || (env "DATAFORSEO_LOGIN").isSome)
    && (c.password.isSome || (env "DATAFORSEO_PASSWORD").isSome)

/-- `ExaConfig` (config.py lines 139-164). -/
structure ExaConfig where
  api_key : Option String := none
deriving Repr, DecidableEq

/-- `ExaConfig.is_configured` (config.py lines 155-157). -/
def ExaConfig.is_configured (c : ExaConfig) (env : Env) : Bool :=
  c.api_key.isSome || (env "EXA_API_KEY").isSome

/-- `JigsawStackConfig` (config.py lines 167-198). -/
structure JigsawStackConfig where
  api_key : Option String := none
  base_url : String := "https://api.jigsawstack.com/v1"
deriving Repr, DecidableEq

/-- `JigsawStackConfig.is_configured` (config.py lines 189-191). -/
def JigsawStackConfig.is_configured (c : JigsawStackConfig) (env : Env) : Bool :=
  c.api_key.isSome || (env "JIGSAWSTACK_API_KEY").isSome

/-- `KagiConfig` (config.py lines 201-232). -/
structure KagiConfig where
  api_key : Option String := none
  base_url : String := "https://kagi.com/api/v0"
deriving Repr, DecidableEq

/-- `KagiConfig.is_configured` (config.py lines 223-225). -/
def KagiConfig.is_configured (c : KagiConfig) (env : Env) : Bool :=
  c.api_key.isSome || (env "KAGI_API_KEY").isSome

/-- `KagiConfig.get_provider` (config.py lines 227-232): an empty explicit
secret is falsy for pydantic SecretStr, so it is passed as `None`. -/
def KagiConfig.get_provider (c : KagiConfig) (env : Env) :
    Except KagiError KagiClient :=
  let api_key := match c.api_key with
    | some s => if s = "" then none else some s
    | none => none
  mkKagiClient api_key c.base_url env

/-- `LinkUpConfig` (config.py lines 235-266). -/
structure LinkUpConfig where
  api_key : Option String := none
  base_url : String := "https://api.linkup.so/v1"
deriving Repr, DecidableEq

/-- `LinkUpConfig.is_configured` (config.py lines 257-259). -/
def LinkUpConfig.is_configured (c : LinkUpConfig) (env : Env) : Bool :=
  c.api_key.isSome || (env "LINKUP_API_KEY").isSome

/-- `Search1Config` (config.py lines 269-300). -/
structure Search1Config where
  api_key : Option String := none
  base_url : String := "https://api.search1api.com"
deriving Repr, DecidableEq

/-- `Search1Config.is_configured` (config.py lines 291-293). -/
def Search1Config.is_configured (c : Search1Config) (env : Env) : Bool :=
  c.api_key.isSome || (env "SEARCH1API_KEY").isSome

/-- `SerpAPIConfig` (config.py lines 303-328). -/
structure SerpAPIConfig where
  api_key : Option String := none
deriving Repr, DecidableEq

/-- `SerpAPIConfig.is_configured` (config.py lines 319-321). -/
def SerpAPIConfig.is_configured (c : SerpAPIConfig) (env : Env) : Bool :=
  c.api_key.isSome || (env "SERPAPI_KEY").isSome

/-- `SerperConfig` (config.py lines 331-362). -/
structure SerperConfig where
  api_key : Option String := none
  base_url : String := "https://google.serper.dev"
deriving Repr, DecidableEq

/-- `SerperConfig.is_configured` (config.py lines 353-355). -/
def SerperConfig.is_configured (c : SerperConfig) (env : Env) : Bool :=
  c.api_key.isSome || (env "SERPER_API_KEY").isSome

/-- `TavilyConfig` (config.py lines 365-390). -/
structure TavilyConfig where
  api_key : Option String := none
deriving Repr, DecidableEq

/-- `TavilyConfig.is_configured` (config.py lines 381-383). -/
def TavilyConfig.is_configured (c : TavilyConfig) (env : Env) : Bool :=
  c.api_key.isSome || (env "TAVILY_API_KEY").isSome

/-- `TavilyConfig.get_provider` (config.py lines 385-390): an empty explicit
secret is falsy for pydantic SecretStr, so it is passed as `None`. -/
def TavilyConfig.get_provider (c : TavilyConfig) (env : Env) :
    Except TavilyError TavilyClient :=
  let api_key := match c.api_key with
    | some s => if s = "" then none else some s
    | none => none
  mkTavilyClient api_key tavilyDefaultTags env

/-- `YouConfig` (config.py lines 393-424); the `base_url` field defaults to
the documented production endpoint. -/
structure YouConfig where
  api_key : Option String := none
  base_url : String := "https://api.ydc-index.io"
deriving Repr, DecidableEq

/-- `YouConfig.is_configured` (config.py lines 415-417). -/
def YouConfig.is_configured (c : YouConfig) (env : Env) : Bool :=
  c.api_key.isSome || (env "YOU_API_KEY").isSome

/-- `YouConfig.get_provider` (config.py lines 419-424). -/
def YouConfig.get_provider (c : YouConfig) (env : Env) :
    Except YouError YouClient :=
  let api_key := match c.api_key with
    | some s => if s = "" then none else some s
    | none => none
  mkYouClient api_key c.base_url env

/-- Helper: characterization of the isSome-or check used by the
single-credential `is_configured` implementations. -/
theorem option_or_check_spec (a b : Option String) :
    ((a.isSome || b.isSome) = true ↔ (a ≠ none ∨ b ≠ none))
    ∧ ((a.isSome || b.isSome) = false ↔ (a = none ∧ b = none)) := by
  cases a <;> cases b <;> simp

/-- Helper: a truthy optional string maps to a non-empty string under the
Python `or ""` default. -/
theorem pyOrEmpty_ne_of_truthy (o : Option String) (h : pyTruthy o = true) :
    pyOrEmpty o ≠ "" := by
  cases o with
  | none => simp [pyTruthy] at h
  | some s =>
    have hs : s ≠ "" := by simpa [pyTruthy] using h
    simp [pyOrEmpty, hs]

/-- Helper: the running token total of the greedy accumulation loop never
exceeds the budget. -/
theorem get_max_items_go_sum_le {α : Type} (countTokens : String → Nat)
    (dumps : α → String) (maxTokens : Nat) (data : List α) :
    ∀ current, current ≤ maxTokens →
      current + ((get_max_items_go countTokens dumps maxTokens data current).map
          (fun i => countTokens (dumps i))).sum ≤ maxTokens := by
  induction data with
  | nil => intro current h; simpa [get_max_items_go] using h
  | cons item rest ih =>
    intro current h
    by_cases hgt : current + countTokens (dumps item) > maxTokens
    · simpa [get_max_items_go, hgt] using h
    · have hle : current + countTokens (dumps item) ≤ maxTokens := by omega
      have hrec := ih (current + countTokens (dumps item)) hle
      simp only [get_max_items_go, if_neg hgt, List.map_cons, List.sum_cons]
      omega

/-- Helper: the greedy accumulation loop keeps a front segment of its
input. -/
theorem get_max_items_go_front {α : Type} (countTokens : String → Nat)
    (dumps : α → String) (maxTokens : Nat) (data : List α) :
    ∀ current, get_max_items_go countTokens dumps maxTokens data current <+: data := by
  induction data with
  | nil => intro current; simp [get_max_items_go]
  | cons item rest ih =>
    intro current
    by_cases hgt : current + countTokens (dumps item) > maxTokens
    · simp [get_max_items_go, hgt]
    · simp only [get_max_items_go, if_neg hgt]
      exact List.cons_prefix_cons.mpr ⟨rfl, ih _⟩

/-- Helper: the greedy accumulation loop stops exactly at the first item
that would exceed the budget. -/
theorem get_max_items_go_stop {α : Type} (countTokens : String → Nat)
    (dumps : α → String) (maxTokens : Nat) (data : List α) :
    ∀ current nxt,
      data.get? ((get_max_items_go countTokens dumps maxTokens data current).length)
          = some nxt →
      maxTokens < current
        + ((get_max_items_go countTokens dumps maxTokens data current).map
            (fun i => countTokens (dumps i))).sum
        + countTokens (dumps nxt) := by
  induction data with
  | nil => intro current nxt h; simp [get_max_items_go] at h
  | cons item rest ih =>
    intro current nxt h
    by_cases hgt : current + countTokens (dumps item) > maxTokens
    · simp [get_max_items_go, hgt] at h ⊢
      subst h
      omega
    · simp only [get_max_items_go, if_neg hgt, List.length_cons,
        List.get?_cons_succ] at h
      have hrec := ih (current + countTokens (dumps item)) nxt h
      simp only [get_max_items_go, if_neg hgt, List.map_cons, List.sum_cons,
        List.length_cons]
      omega

/-- Helper: `List.lookup` skips a front segment none of whose keys match. -/
theorem lookup_append_left_none (key : String) (l₁ l₂ : List (String × SerpParam))
    (h : ∀ p ∈ l₁, p.1 ≠ key) : (l₁ ++ l₂).lookup key = l₂.lookup key := by
  induction l₁ with
  | nil => simp
  | cons p l ih =>
    obtain ⟨pk, pv⟩ := p
    have hpk : pk ≠ key := h (pk, pv) (by simp)
    have hb : (key == pk) = false := beq_eq_false_iff_ne.mpr (fun e => hpk e.symm)
    simp only [List.cons_append, List.lookup, hb]
    exact ih (fun q hq => h q (by simp [hq]))

/-- Helper: every pair produced by `serpOptParam key v f` carries `key`. -/
theorem serpOptParam_key (key : String) (v : Option String) (f : String → SerpParam)
    (p : String × SerpParam) (hp : p ∈ serpOptParam key v f) : p.1 = key := by
  cases v with
  | none => simp [serpOptParam] at hp
  | some s =>
    by_cases hs : s = ""
    · simp [serpOptParam, hs] at hp
    · simp [serpOptParam, hs] at hp
      simp [hp]

/-- Helper: the keys of the first five parameter segments built by
`serpapi_search_params` (everything before the engine pair). -/
theorem serpapi_front_keys (query : String) (country language location : Option String)
    (safe : Bool) (k : Nat) (p : String × SerpParam)
    (hp : p ∈ ([("q", SerpParam.str query), ("num", SerpParam.num k)]
        ++ serpOptParam "gl" country (fun c => .str c.toLower)
        ++ serpOptParam "hl" language (fun l => .str l.toLower)
        ++ serpOptParam "location" location (fun l => .str l)
        ++ (if safe then [("safe", SerpParam.str "active")] else []))) :
    p.1 = "q" ∨ p.1 = "num" ∨ p.1 = "gl" ∨ p.1 = "hl"
      ∨ p.1 = "location" ∨ p.1 = "safe" := by
  simp only [List.append_assoc, List.mem_append, List.mem_cons,
    List.not_mem_nil, or_false] at hp
  rcases hp with (h | h) | h | h | h | h
  · simp [h]
  · simp [h]
  · exact Or.inr (Or.inr (Or.inl (serpOptParam_key _ _ _ _ h)))
  · exact Or.inr (Or.inr (Or.inr (Or.inl (serpOptParam_key _ _ _ _ h))))
  · exact Or.inr (Or.inr (Or.inr (Or.inr (Or.inl (serpOptParam_key _ _ _ _ h)))))
  · cases safe with
    | false => simp at h
    | true =>
      simp at h
      simp [h]

/-- Helper: the keys of the first four parameter segments built by
`serpapi_search_params` (everything before the safe flag). -/
theorem serpapi_front4_keys (query : String) (country language location : Option String)
    (k : Nat) (p : String × SerpParam)
    (hp : p ∈ ([("q", SerpParam.str query), ("num", SerpParam.num k)]
        ++ serpOptParam "gl" country (fun c => .str c.toLower)
        ++ serpOptParam "hl" language (fun l => .str l.toLower)
        ++ serpOptParam "location" location (fun l => .str l))) :
    p.1 = "q" ∨ p.1 = "num" ∨ p.1 = "gl" ∨ p.1 = "hl" ∨ p.1 = "location" := by
  simp only [List.append_assoc, List.mem_append, List.mem_cons,
    List.not_mem_nil, or_false] at hp
  rcases hp with (h | h) | h | h | h
  · simp [h]
  · simp [h]
  · exact Or.inr (Or.inr (Or.inl (serpOptParam_key _ _ _ _ h)))
  · exact Or.inr (Or.inr (Or.inr (Or.inl (serpOptParam_key _ _ _ _ h))))
  · exact Or.inr (Or.inr (Or.inr (Or.inr (serpOptParam_key _ _ _ _ h))))

/-- C2 (amended): Tavily `_search` classifies HTTP statuses exactly as
documented: 200 returns the parsed JSON body; 429 raises the
usage-limit-exceeded error with the message from the response's
`detail.error` field when present, else the generic message; 401 raises
the invalid-API-key error; any other non-2xx raises a generic HTTP failure
carrying the status (in particular a 400 in `_search`); and in `_extract`
(only) a 400 raises the bad-request error with the message from
`detail.error` when that path yields a value, and with the generic message
when a key along the path is absent (the suppressed `KeyError` case) —
except that a body or detail field that is not a JSON object makes the
lookup raise an unhandled `TypeError` instead of the bad-request error. -/
theorem tavily_status_classification (body d v : Json) (status : Nat)
    (hrange : ¬ (200 ≤ status ∧ status < 300))
    (h429 : status ≠ 429) (h401 : status ≠ 401) :
    tavily_search_classify ⟨200, body⟩ = .ok body
    ∧ tavily_search_classify ⟨429, body⟩ =
        .error (.usageLimitExceeded
          ((tavily_detail_error body).getD (.str "Too many requests.")))
    ∧ tavily_search_classify ⟨401, body⟩ = .error .invalidAPIKey
    ∧ tavily_search_classify ⟨status, body⟩ = .error (.httpStatusError status)
    ∧ tavily_search_classify ⟨400, body⟩ = .error (.httpStatusError 400)
    ∧ tavily_extract_classify ⟨200, body⟩ = .ok body
    ∧ (body.pyGetItem "detail" = .found d → d.pyGetItem "error" = .found v →
        tavily_extract_classify ⟨400, body⟩ = .error (.badRequest v))
    ∧ (body.pyGetItem "detail" = .keyError →
        tavily_extract_classify ⟨400, body⟩ =
          .error (.badRequest
            (.str "Bad request. The request was invalid or cannot be served.")))
    ∧ (body.pyGetItem "detail" = .found d → d.pyGetItem "error" = .keyError →
        tavily_extract_classify ⟨400, body⟩ =
          .error (.badRequest
            (.str "Bad request. The request was invalid or cannot be served.")))
    ∧ (body.pyGetItem "detail" = .typeError →
        tavily_extract_classify ⟨400, body⟩ = .error .typeError)
    ∧ (body.pyGetItem "detail" = .found d → d.pyGetItem "error" = .typeError →
        tavily_extract_classify ⟨400, body⟩ = .error .typeError) := by
  have h200 : status ≠ 200 := by omega
  refine ⟨?_, ?_, ?_, ?_, ?_, ?_, ?_, ?_, ?_, ?_, ?_⟩
  · simp [tavily_search_classify]
  · simp [tavily_search_classify]
  · simp [tavily_search_classify]
  · simp [tavily_search_classify, h200, h429, h401, hrange]
  · simp [tavily_search_classify]
  · simp [tavily_extract_classify]
  · intro h1 h2
    simp [tavily_extract_classify, h1, h2]
  · intro h1
    simp [tavily_extract_classify, h1]
  · intro h1 h2
    simp [tavily_extract_classify, h1, h2]
  · intro h1
    simp [tavily_extract_classify, h1]
  · intro h1 h2
    simp [tavily_extract_classify, h1, h2]

/-- Witness for C2 at status 500 with a body carrying `detail.error`, a
body missing it, and a non-object body. -/
theorem tavily_status_classification_witness :
    tavily_search_classify ⟨200, Json.null⟩ = .ok Json.null
    ∧ tavily_search_classify ⟨429, Json.null⟩ =
        .error (.usageLimitExceeded
          ((tavily_detail_error Json.null).getD (.str "Too many requests.")))
    ∧ tavily_search_classify ⟨401, Json.null⟩ = .error .invalidAPIKey
    ∧ tavily_search_classify ⟨500, Json.null⟩ = .error (.httpStatusError 500)
    ∧ tavily_search_classify ⟨400, Json.null⟩ = .error (.httpStatusError 400)
    ∧ tavily_extract_classify
        ⟨400, Json.obj [("detail", Json.obj [("error", Json.str "quota")])]⟩
      = .error (.badRequest (.str "quota"))
    ∧ tavily_extract_classify ⟨400, Json.obj []⟩
      = .error (.badRequest
          (.str "Bad request. The request was invalid or cannot be served."))
    ∧ tavily_extract_classify ⟨400, Json.null⟩ = .error .typeError := by
  have h1 := tavily_status_classification
    (Json.obj [("detail", Json.obj [("error", Json.str "quota")])])
    (Json.obj [("error", Json.str "quota")]) (Json.str "quota")
    500 (by omega) (by decide) (by decide)
  have h2 := tavily_status_classification (Json.obj []) Json.null Json.null
    500 (by omega) (by decide) (by decide)
  have h3 := tavily_status_classification Json.null Json.null Json.null
    500 (by omega) (by decide) (by decide)
  exact ⟨h3.1, h3.2.1, h3.2.2.1, h3.2.2.2.1, h3.2.2.2.2.1,
    h1.2.2.2.2.2.2.1 rfl rfl, h2.2.2.2.2.2.2.2.1 rfl,
    h3.2.2.2.2.2.2.2.2.2.1 rfl⟩

/-- Counterexample to C2 as stated: on a 400 response whose body is JSON
null, `_extract` hits an unsuppressed `TypeError` (only `KeyError` is
suppressed around the `detail.error` lookup) and never raises the
bad-request error. -/
theorem tavily_extract_400_typeerror_counterexample :
    tavily_extract_classify ⟨400, Json.null⟩ = .error .typeError
    ∧ tavily_extract_classify ⟨400, Json.null⟩
        ≠ .error (.badRequest
            (.str "Bad request. The request was invalid or cannot be served.")) := by
  constructor
  · rfl
  · simp [tavily_extract_classify, Json.pyGetItem]

/-- C3: You.com `search` rejects any offset outside 0..9 with the
validation `ValueError` independently of the transport (no network call is
needed to produce the failure); offset 10 in particular fails, while
offsets 0 and 9 proceed to a successful transport call. -/
theorem you_search_offset_validation (client : YouClient) (query : String)
    (count : Int) (country language : Option String) (safesearch : String)
    (freshness livecrawl livecrawl_formats : Option String) :
    (∀ offset : Int, (offset < 0 ∨ 9 < offset) → ∀ t : YouRequest → Json,
        you_search client t query count offset country language safesearch
            freshness livecrawl livecrawl_formats
          = .error (.valueError "offset must be between 0 and 9"))
    ∧ (∀ t : YouRequest → Json,
        you_search client t query count 10 country language safesearch
            freshness livecrawl livecrawl_formats
          = .error (.valueError "offset must be between 0 and 9"))
    ∧ (∀ t : YouRequest → Json, ∃ j,
        you_search client t query count 0 country language safesearch
            freshness livecrawl livecrawl_formats = .ok j)
    ∧ (∀ t : YouRequest → Json, ∃ j,
        you_search client t query count 9 country language safesearch
            freshness livecrawl livecrawl_formats = .ok j) := by
  refine ⟨?_, ?_, ?_, ?_⟩
  · intro offset h t
    have hc : ¬ ((0 : Int) ≤ offset ∧ offset ≤ 9) := by omega
    simp [you_search, hc]
  · intro t
    have hc : ¬ ((0 : Int) ≤ 10 ∧ (10 : Int) ≤ 9) := by omega
    simp [you_search, hc]
  · intro t
    apply Exists.intro
    simp only [you_search]
    rw [if_neg (not_not.mpr (by omega))]
  · intro t
    apply Exists.intro
    simp only [you_search]
    rw [if_neg (not_not.mpr (by omega))]

/-- Witness for C3 at offset 10 and offset 0 with a constant transport. -/
theorem you_search_offset_validation_witness :
    (you_search ⟨"key", "https://ydc-index.io"⟩ (fun _ => Json.null) "q" 10 10
        none none "moderate" none none none
      = .error (.valueError "offset must be between 0 and 9"))
    ∧ (∃ j, you_search ⟨"key", "https://ydc-index.io"⟩ (fun _ => Json.null) "q" 10 0
        none none "moderate" none none none = .ok j) := by
  have h := you_search_offset_validation ⟨"key", "https://ydc-index.io"⟩ "q" 10
    none none "moderate" none none none
  exact ⟨h.1 10 (by omega) (fun _ => Json.null), h.2.2.1 (fun _ => Json.null)⟩

/-- C7: constructing an adapter with no explicit credential and the
documented environment variable unset fails at construction time with the
missing-credentials error (MissingAPIKeyError for Tavily, `ValueError` for
You.com, Kagi and SerpAPI); no client value is produced, so the failure
cannot be deferred to a later search call. -/
theorem construction_missing_credentials (env : Env)
    (htav : env "TAVILY_API_KEY" = none) (hyou : env "YOU_API_KEY" = none)
    (hkagi : env "KAGI_API_KEY" = none) (hserp : env "SERPAPI_KEY" = none) :
    mkTavilyClient none tavilyDefaultTags env = .error .missingAPIKey
    ∧ mkYouClient none youDefaultBaseUrl env
        = .error (.valueError "No API key provided. Set YOU_API_KEY env var or pass api_key")
    ∧ mkKagiClient none kagiDefaultBaseUrl env
        = .error (.valueError "No API key provided. Set KAGI_API_KEY env var or pass api_key")
    ∧ mkSerpAPIClient none env
        = .error (.valueError "No API key provided. Set SERPAPI_KEY env var or pass api_key") := by
  refine ⟨?_, ?_, ?_, ?_⟩
  · simp [mkTavilyClient, htav]
  · simp [mkYouClient, pyOrElse, hyou]
  · simp [mkKagiClient, pyOrElse, hkagi]
  · simp [mkSerpAPIClient, pyOrElse, hserp]

/-- Witness for C7 with an empty environment. -/
theorem construction_missing_credentials_witness :
    mkTavilyClient none tavilyDefaultTags (fun _ => none) = .error .missingAPIKey
    ∧ mkYouClient none youDefaultBaseUrl (fun _ => none)
        = .error (.valueError "No API key provided. Set YOU_API_KEY env var or pass api_key")
    ∧ mkKagiClient none kagiDefaultBaseUrl (fun _ => none)
        = .error (.valueError "No API key provided. Set KAGI_API_KEY env var or pass api_key")
    ∧ mkSerpAPIClient none (fun _ => none)
        = .error (.valueError "No API key provided. Set SERPAPI_KEY env var or pass api_key") :=
  construction_missing_credentials (fun _ => none) rfl rfl rfl rfl

/-- C9: the default base URL of a directly-constructed `AsyncYouClient` is
"https://ydc-index.io", not the documented production endpoint
"https://api.ydc-index.io" (which only the `YouConfig.base_url` default
supplies); the Kagi default matches its documented endpoint.  This
evaluates the embedded constructors at the failing input (construction with
no base_url argument). -/
theorem you_default_base_url_divergence :
    youDefaultBaseUrl = "https://ydc-index.io"
    ∧ youDefaultBaseUrl ≠ "https://api.ydc-index.io"
    ∧ ({} : YouConfig).base_url = "https://api.ydc-index.io"
    ∧ youSearchUrl ⟨"key", youDefaultBaseUrl⟩ = "https://ydc-index.io/v1/search"
    ∧ mkYouClient (some "key") youDefaultBaseUrl (fun _ => none)
        = .ok ⟨"key", "https://ydc-index.io"⟩
    ∧ kagiDefaultBaseUrl = "https://kagi.com/api/v0" := by
  refine ⟨rfl, by decide, rfl, rfl, by simp [mkYouClient, pyOrElse, youDefaultBaseUrl], rfl⟩

/-- C10: when the documented environment variable is set to the empty
string and no explicit credential is given, `is_configured` (an
is-not-None check) returns true while `get_provider` rejects the falsy key
and fails with the missing-credentials error. -/
theorem is_configured_empty_env_divergence (env : Env)
    (htav : env "TAVILY_API_KEY" = some "") (hkagi : env "KAGI_API_KEY" = some "") :
    (∀ c : TavilyConfig, c.api_key = none →
        c.is_configured env = true
        ∧ c.get_provider env = .error .missingAPIKey)
    ∧ (∀ c : KagiConfig, c.api_key = none →
        c.is_configured env = true
        ∧ c.get_provider env
            = .error (.valueError "No API key provided. Set KAGI_API_KEY env var or pass api_key")) := by
  constructor
  · intro c hc
    constructor
    · simp [TavilyConfig.is_configured, hc, htav]
    · simp [TavilyConfig.get_provider, hc, mkTavilyClient, htav]
  · intro c hc
    constructor
    · simp [KagiConfig.is_configured, hc, hkagi]
    · simp [KagiConfig.get_provider, hc, mkKagiClient, pyOrElse, hkagi]

/-- Witness for C10: every variable set to the empty string, default
configs. -/
theorem is_configured_empty_env_divergence_witness :
    (TavilyConfig.is_configured {} (fun _ => some "") = true
      ∧ TavilyConfig.get_provider {} (fun _ => some "") = .error .missingAPIKey)
    ∧ (KagiConfig.is_configured {} (fun _ => some "") = true
      ∧ KagiConfig.get_provider {} (fun _ => some "")
          = .error (.valueError "No API key provided. Set KAGI_API_KEY env var or pass api_key")) := by
  have h := is_configured_empty_env_divergence (fun _ => some "") rfl rfl
  exact ⟨h.1 {} rfl, h.2 {} rfl⟩

/-- C1 (amended): Kagi `web_search`/`news_search` filter out source items
whose url is falsy before truncating to `max_results` (so the returned list
has length `min max_results` (number of url-bearing items)), and every
returned result has a non-empty url; the title is taken from the source
item and defaults to the empty string when absent. -/
theorem kagi_search_url_filter_truncation (data : List KagiItem) (k : Nat) :
    (kagi_web_search_results data k).results.length
        = min k (data.filter (fun item => pyTruthy item.url)).length
    ∧ (∀ r ∈ (kagi_web_search_results data k).results, r.url ≠ "")
    ∧ (kagi_news_search_results data k).results.length
        = min k (data.filter (fun item => pyTruthy item.url)).length
    ∧ (∀ r ∈ (kagi_news_search_results data k).results, r.url ≠ "") := by
  refine ⟨?_, ?_, ?_, ?_⟩
  · simp [kagi_web_search_results]
  · intro r hr
    simp only [kagi_web_search_results] at hr
    have hr2 := List.mem_of_mem_take hr
    obtain ⟨item, hitem, rfl⟩ := List.mem_map.mp hr2
    have hp := (List.mem_filter.mp hitem).2
    exact pyOrEmpty_ne_of_truthy item.url hp
  · simp [kagi_news_search_results]
  · intro r hr
    simp only [kagi_news_search_results] at hr
    have hr2 := List.mem_of_mem_take hr
    obtain ⟨item, hitem, rfl⟩ := List.mem_map.mp hr2
    have hp := (List.mem_filter.mp hitem).2
    exact pyOrEmpty_ne_of_truthy item.url hp

/-- Witness for C1 (amended) on one url-bearing item. -/
theorem kagi_search_url_filter_truncation_witness :
    (kagi_web_search_results [⟨some "T", some "https://a", some "s", none⟩] 1).results.length
        = min 1 (([⟨some "T", some "https://a", some "s", none⟩] : List KagiItem).filter
            (fun item => pyTruthy item.url)).length
    ∧ (WebSearchResult.mk "T" "https://a" "s").url ≠ "" := by
  have h := kagi_search_url_filter_truncation
    [⟨some "T", some "https://a", some "s", none⟩] 1
  refine ⟨h.1, h.2.1 (WebSearchResult.mk "T" "https://a" "s") ?_⟩
  simp [kagi_web_search_results, pyTruthy, pyOrEmpty]

/-- Counterexample to C1 as stated: a source item carrying a url but no
title yields a returned result whose title is the empty string. -/
theorem kagi_web_search_empty_title_counterexample :
    ∃ r ∈ (kagi_web_search_results
        [⟨none, some "https://example.com", none, none⟩] 5).results, r.title = "" := by
  refine ⟨⟨"", "https://example.com", ""⟩, ?_, rfl⟩
  simp [kagi_web_search_results, pyTruthy, pyOrEmpty]

/-- C4: for every provider configuration variant, `is_configured` is false
exactly when neither the explicit credential field nor the documented
environment variable is set, and true exactly when either is set; the
DataForSEO variant is true exactly when both a login and a password are
resolvable.  The check consults only the explicit fields and the
environment map. -/
theorem config_is_configured_credentials (env : Env) :
    (∀ c : BraveSearchConfig,
      (c.is_configured env = true ↔ (c.api_key ≠ none ∨ env "BRAVE_API_KEY" ≠ none))
      ∧ (c.is_configured env = false ↔ (c.api_key = none ∧ env "BRAVE_API_KEY" = none)))
    ∧ (∀ c : DataForSEOConfig,
      (c.is_configured env = true ↔
        ((c.login ≠ none ∨ env "DATAFORSEO_LOGIN" ≠ none)
          ∧ (c.password ≠ none ∨ env "DATAFORSEO_PASSWORD" ≠ none)))
      ∧ (c.is_configured env = false ↔
        ((c.login = none ∧ env "DATAFORSEO_LOGIN" = none)
          ∨ (c.password = none ∧ env "DATAFORSEO_PASSWORD" = none))))
    ∧ (∀ c : ExaConfig,
      (c.is_configured env = true ↔ (c.api_key ≠ none ∨ env "EXA_API_KEY" ≠ none))
      ∧ (c.is_configured env = false ↔ (c.api_key = none ∧ env "EXA_API_KEY" = none)))
    ∧ (∀ c : JigsawStackConfig,
      (c.is_configured env = true ↔ (c.api_key ≠ none ∨ env "JIGSAWSTACK_API_KEY" ≠ none))
      ∧ (c.is_configured env = false ↔ (c.api_key = none ∧ env "JIGSAWSTACK_API_KEY" = none)))
    ∧ (∀ c : KagiConfig,
      (c.is_configured env = true ↔ (c.api_key ≠ none ∨ env "KAGI_API_KEY" ≠ none))
      ∧ (c.is_configured env = false ↔ (c.api_key = none ∧ env "KAGI_API_KEY" = none)))
    ∧ (∀ c : LinkUpConfig,
      (c.is_configured env = true ↔ (c.api_key ≠ none ∨ env "LINKUP_API_KEY" ≠ none))
      ∧ (c.is_configured env = false ↔ (c.api_key = none ∧ env "LINKUP_API_KEY" = none)))
    ∧ (∀ c : Search1Config,
      (c.is_configured env = true ↔ (c.api_key ≠ none ∨ env "SEARCH1API_KEY" ≠ none))
      ∧ (c.is_configured env = false ↔ (c.api_key = none ∧ env "SEARCH1API_KEY" = none)))
    ∧ (∀ c : SerpAPIConfig,
      (c.is_configured env = true ↔ (c.api_key ≠ none ∨ env "SERPAPI_KEY" ≠ none))
      ∧ (c.is_configured env = false ↔ (c.api_key = none ∧ env "SERPAPI_KEY" = none)))
    ∧ (∀ c : SerperConfig,
      (c.is_configured env = true ↔ (c.api_key ≠ none ∨ env "SERPER_API_KEY" ≠ none))
      ∧ (c.is_configured env = false ↔ (c.api_key = none ∧ env "SERPER_API_KEY" = none)))
    ∧ (∀ c : TavilyConfig,
      (c.is_configured env = true ↔ (c.api_key ≠ none ∨ env "TAVILY_API_KEY" ≠ none))
      ∧ (c.is_configured env = false ↔ (c.api_key = none ∧ env "TAVILY_API_KEY" = none)))
    ∧ (∀ c : YouConfig,
      (c.is_configured env = true ↔ (c.api_key ≠ none ∨ env "YOU_API_KEY" ≠ none))
      ∧ (c.is_configured env = false ↔ (c.api_key = none ∧ env "YOU_API_KEY" = none))) := by
  refine ⟨?_, ?_, ?_, ?_, ?_, ?_, ?_, ?_, ?_, ?_, ?_⟩
  · intro c
    simpa [BraveSearchConfig.is_configured] using
      option_or_check_spec c.api_key (env "BRAVE_API_KEY")
  · intro c
    cases hl : c.login <;> cases hp : c.password <;>
      cases he1 : env "DATAFORSEO_LOGIN" <;> cases he2 : env "DATAFORSEO_PASSWORD" <;>
        simp [DataForSEOConfig.is_configured, hl, hp, he1, he2]
  · intro c
    simpa [ExaConfig.is_configured] using
      option_or_check_spec c.api_key (env "EXA_API_KEY")
  · intro c
    simpa [JigsawStackConfig.is_configured] using
      option_or_check_spec c.api_key (env "JIGSAWSTACK_API_KEY")
  · intro c
    simpa [KagiConfig.is_configured] using
      option_or_check_spec c.api_key (env "KAGI_API_KEY")
  · intro c
    simpa [LinkUpConfig.is_configured] using
      option_or_check_spec c.api_key (env "LINKUP_API_KEY")
  · intro c
    simpa [Search1Config.is_configured] using
      option_or_check_spec c.api_key (env "SEARCH1API_KEY")
  · intro c
    simpa [SerpAPIConfig.is_configured] using
      option_or_check_spec c.api_key (env "SERPAPI_KEY")
  · intro c
    simpa [SerperConfig.is_configured] using
      option_or_check_spec c.api_key (env "SERPER_API_KEY")
  · intro c
    simpa [TavilyConfig.is_configured] using
      option_or_check_spec c.api_key (env "TAVILY_API_KEY")
  · intro c
    simpa [YouConfig.is_configured] using
      option_or_check_spec c.api_key (env "YOU_API_KEY")

/-- Witness for C4: with an empty environment and default configs every
variant reports not configured; with a set key the Brave variant reports
configured. -/
theorem config_is_configured_credentials_witness :
    BraveSearchConfig.is_configured {} (fun _ => none) = false
    ∧ DataForSEOConfig.is_configured {} (fun _ => none) = false
    ∧ BraveSearchConfig.is_configured {} (fun _ => some "k") = true := by
  refine ⟨?_, ?_, ?_⟩
  · exact ((config_is_configured_credentials (fun _ => none)).1 {}).2.mpr ⟨rfl, rfl⟩
  · exact ((config_is_configured_credentials (fun _ => none)).2.1 {}).2.mpr
      (Or.inl ⟨rfl, rfl⟩)
  · exact ((config_is_configured_credentials (fun _ => some "k")).1 {}).1.mpr
      (Or.inr (by simp))

/-- C5 (amended): `get_search_context` serializes the greedy selection of
`get_max_items_from_list`: the selected items are a front segment (prefix,
possibly the whole list) of the url/content projections of the sources in
received order, their cumulative token count by the injected counter never
exceeds the budget, and the selection stops exactly at the first item that
would exceed it. -/
theorem get_search_context_budget (countTokens : String → Nat)
    (sources : List TavilyResult) (maxTokens : Nat) :
    ((get_max_items_from_list countTokens dumpsContextItem (sources.map toContextItem)
        maxTokens).map (fun i => countTokens (dumpsContextItem i))).sum ≤ maxTokens
    ∧ get_max_items_from_list countTokens dumpsContextItem (sources.map toContextItem)
        maxTokens <+: sources.map toContextItem
    ∧ get_search_context countTokens sources maxTokens
        = dumpsContextList (get_max_items_from_list countTokens dumpsContextItem
            (sources.map toContextItem) maxTokens)
    ∧ (∀ nxt, (sources.map toContextItem).get?
          ((get_max_items_from_list countTokens dumpsContextItem
            (sources.map toContextItem) maxTokens).length) = some nxt →
        maxTokens < ((get_max_items_from_list countTokens dumpsContextItem
            (sources.map toContextItem) maxTokens).map
              (fun i => countTokens (dumpsContextItem i))).sum
          + countTokens (dumpsContextItem nxt)) := by
  refine ⟨?_, ?_, rfl, ?_⟩
  · simpa [get_max_items_from_list] using
      get_max_items_go_sum_le countTokens dumpsContextItem maxTokens
        (sources.map toContextItem) 0 (Nat.zero_le _)
  · exact get_max_items_go_front countTokens dumpsContextItem maxTokens
      (sources.map toContextItem) 0
  · intro nxt h
    simpa [get_max_items_from_list] using
      get_max_items_go_stop countTokens dumpsContextItem maxTokens
        (sources.map toContextItem) 0 nxt h

/-- Witness for C5 (amended): a first item that alone exceeds the budget is
rejected, keeping the total within budget. -/
theorem get_search_context_budget_witness :
    ((get_max_items_from_list (fun _ => 5) dumpsContextItem
        ([TavilyResult.mk "u" "c" 0].map toContextItem) 4).map
          (fun i => (fun _ => 5 : String → Nat) (dumpsContextItem i))).sum ≤ 4
    ∧ 4 < ((get_max_items_from_list (fun _ => 5) dumpsContextItem
        ([TavilyResult.mk "u" "c" 0].map toContextItem) 4).map
          (fun i => (fun _ => 5 : String → Nat) (dumpsContextItem i))).sum
        + (fun _ => 5 : String → Nat)
            (dumpsContextItem (toContextItem (TavilyResult.mk "u" "c" 0))) := by
  have h := get_search_context_budget (fun _ => 5) [TavilyResult.mk "u" "c" 0] 4
  exact ⟨h.1, h.2.2.2 (toContextItem (TavilyResult.mk "u" "c" 0)) rfl⟩

/-- Counterexample to C5 as stated: when every item fits the budget the
greedy selection returns the whole candidate list, which is not a strict
prefix of itself. -/
theorem get_search_context_whole_list_counterexample :
    get_max_items_from_list (fun _ => 1) dumpsContextItem
        [ContextItem.mk "https://example.com" "text"] 4000
      = [ContextItem.mk "https://example.com" "text"]
    ∧ ¬ (get_max_items_from_list (fun _ => 1) dumpsContextItem
            [ContextItem.mk "https://example.com" "text"] 4000
          <+: [ContextItem.mk "https://example.com" "text"]
        ∧ get_max_items_from_list (fun _ => 1) dumpsContextItem
            [ContextItem.mk "https://example.com" "text"] 4000
          ≠ [ContextItem.mk "https://example.com" "text"]) := by
  have he : get_max_items_from_list (fun _ => 1) dumpsContextItem
      [ContextItem.mk "https://example.com" "text"] 4000
    = [ContextItem.mk "https://example.com" "text"] := by rfl
  exact ⟨he, fun hc => hc.2 he⟩

/-- C6: `get_company_info` aggregates the result lists of the configured
topics (default exactly news, general, finance), sorts the merged list in
descending order of `score`, and truncates to `max_results`; every returned
item originates from one of the configured topics' result lists. -/
theorem get_company_info_sorted_bounded (respFor : String → Option (List TavilyResult))
    (tags : List String) (k : Nat) :
    List.Sorted scoreDesc (get_company_info respFor tags k)
    ∧ (get_company_info respFor tags k).length ≤ k
    ∧ (∀ x ∈ get_company_info respFor tags k,
        ∃ t ∈ tags, ∃ rs, respFor t = some rs ∧ x ∈ rs)
    ∧ tavilyDefaultTags = ["news", "general", "finance"] := by
  refine ⟨?_, ?_, ?_, rfl⟩
  · exact List.Pairwise.sublist (List.take_sublist _ _)
      (List.sorted_insertionSort scoreDesc _)
  · simp only [get_company_info, List.length_take]
    exact min_le_left _ _
  · intro x hx
    simp only [get_company_info] at hx
    have hx1 := List.mem_of_mem_take hx
    have hx2 := (List.perm_insertionSort scoreDesc _).subset hx1
    rw [List.mem_flatten] at hx2
    obtain ⟨l, hl, hxl⟩ := hx2
    obtain ⟨t, ht, rfl⟩ := List.mem_map.mp hl
    cases hrt : respFor t with
    | none => rw [hrt] at hxl; simp at hxl
    | some rs =>
      rw [hrt] at hxl
      exact ⟨t, ht, rs, hrt, by simpa using hxl⟩

/-- Witness for C6 on a one-topic response with the default tags. -/
theorem get_company_info_sorted_bounded_witness :
    List.Sorted scoreDesc (get_company_info
        (fun t => if t = "news" then some [TavilyResult.mk "u" "c" 3] else none)
        tavilyDefaultTags 5)
    ∧ (∃ t ∈ tavilyDefaultTags, ∃ rs,
        (fun t => if t = "news" then some [TavilyResult.mk "u" "c" 3] else none) t
            = some rs
          ∧ TavilyResult.mk "u" "c" 3 ∈ rs) := by
  have h := get_company_info_sorted_bounded
    (fun t => if t = "news" then some [TavilyResult.mk "u" "c" 3] else none)
    tavilyDefaultTags 5
  refine ⟨h.1, h.2.2.1 (TavilyResult.mk "u" "c" 3) ?_⟩
  simp [get_company_info, tavilyDefaultTags, List.insertionSort, List.orderedInsert]

/-- C8: `AsyncSerpAPIClient.search` maps `search_type` to the engine
parameter exactly as documented (search to google, news to google_news,
images to google_images, videos to google_videos), sends `safe=true` as the
string flag "active", and sends a truthy country lowercased as `gl` and a
truthy language lowercased as `hl`. -/
theorem serpapi_param_mapping (query : String)
    (country language location : Option String) (safe : Bool) (k : Nat) :
    ((serpapi_search_params query .search country language location safe k).lookup "engine"
        = some (.str "google"))
    ∧ ((serpapi_search_params query .news country language location safe k).lookup "engine"
        = some (.str "google_news"))
    ∧ ((serpapi_search_params query .images country language location safe k).lookup "engine"
        = some (.str "google_images"))
    ∧ ((serpapi_search_params query .videos country language location safe k).lookup "engine"
        = some (.str "google_videos"))
    ∧ (safe = true → ∀ st : SerpSearchType,
        (serpapi_search_params query st country language location safe k).lookup "safe"
          = some (.str "active"))
    ∧ (∀ c, country = some c → c ≠ "" → ∀ st : SerpSearchType,
        (serpapi_search_params query st country language location safe k).lookup "gl"
          = some (.str c.toLower))
    ∧ (∀ l, language = some l → l ≠ "" → ∀ st : SerpSearchType,
        (serpapi_search_params query st country language location safe k).lookup "hl"
          = some (.str l.toLower)) := by
  have hfrontEngine : ∀ st : SerpSearchType,
      (serpapi_search_params query st country language location safe k).lookup "engine"
        = some (.str (match st with
            | .search => "google"
            | .news => "google_news"
            | .images => "google_images"
            | .videos => "google_videos")) := by
    intro st
    have hkeys : ∀ p ∈ ([("q", SerpParam.str query), ("num", SerpParam.num k)]
        ++ serpOptParam "gl" country (fun c => .str c.toLower)
        ++ serpOptParam "hl" language (fun l => .str l.toLower)
        ++ serpOptParam "location" location (fun l => .str l)
        ++ (if safe then [("safe", SerpParam.str "active")] else [])),
        p.1 ≠ "engine" := by
      intro p hp
      rcases serpapi_front_keys query country language location safe k p hp with
        h | h | h | h | h | h <;> simp [h]
    rw [show serpapi_search_params query st country language location safe k
        = ([("q", SerpParam.str query), ("num", SerpParam.num k)]
          ++ serpOptParam "gl" country (fun c => .str c.toLower)
          ++ serpOptParam "hl" language (fun l => .str l.toLower)
          ++ serpOptParam "location" location (fun l => .str l)
          ++ (if safe then [("safe", SerpParam.str "active")] else []))
          ++ [("engine", .str (match st with
              | .search => "google"
              | .news => "google_news"
              | .images => "google_images"
              | .videos => "google_videos"))] from rfl]
    rw [lookup_append_left_none "engine" _ _ hkeys]
    simp [List.lookup]
  refine ⟨hfrontEngine .search, hfrontEngine .news, hfrontEngine .images,
    hfrontEngine .videos, ?_, ?_, ?_⟩
  · intro hsafe st
    subst hsafe
    have hkeys : ∀ p ∈ ([("q", SerpParam.str query), ("num", SerpParam.num k)]
        ++ serpOptParam "gl" country (fun c => .str c.toLower)
        ++ serpOptParam "hl" language (fun l => .str l.toLower)
        ++ serpOptParam "location" location (fun l => .str l)),
        p.1 ≠ "safe" := by
      intro p hp
      rcases serpapi_front4_keys query country language location k p hp with
        h | h | h | h | h <;> simp [h]
    rw [show serpapi_search_params query st country language location true k
        = ([("q", SerpParam.str query), ("num", SerpParam.num k)]
          ++ serpOptParam "gl" country (fun c => .str c.toLower)
          ++ serpOptParam "hl" language (fun l => .str l.toLower)
          ++ serpOptParam "location" location (fun l => .str l))
          ++ ([("safe", SerpParam.str "active")]
            ++ [("engine", .str (match st with
                | .search => "google"
                | .news => "google_news"
                | .images => "google_images"
                | .videos => "google_videos"))]) from by
      simp [serpapi_search_params]]
    rw [lookup_append_left_none "safe" _ _ hkeys]
    simp [List.lookup]
  · intro c hcountry hc st
    subst hcountry
    simp [serpapi_search_params, serpOptParam, List.lookup, hc]
  · intro l hlanguage hl st
    subst hlanguage
    rcases country with _ | c0
    · simp [serpapi_search_params, serpOptParam, List.lookup, hl]
    · by_cases hc0 : c0 = "" <;>
        simp [serpapi_search_params, serpOptParam, List.lookup, hl, hc0]

/-- Witness for C8 with concrete arguments. -/
theorem serpapi_param_mapping_witness :
    ((serpapi_search_params "q" .search (some "US") (some "EN") none true 10).lookup "engine"
        = some (.str "google"))
    ∧ ((serpapi_search_params "q" .news (some "US") (some "EN") none true 10).lookup "safe"
        = some (.str "active"))
    ∧ ((serpapi_search_params "q" .news (some "US") (some "EN") none true 10).lookup "gl"
        = some (.str "US".toLower))
    ∧ ((serpapi_search_params "q" .news (some "US") (some "EN") none true 10).lookup "hl"
        = some (.str "EN".toLower)) := by
  have h := serpapi_param_mapping "q" (some "US") (some "EN") none true 10
  exact ⟨h.1, h.2.2.2.2.1 rfl .news, h.2.2.2.2.2.1 "US" rfl (by decide) .news,
    h.2.2.2.2.2.2 "EN" rfl (by decide) .news⟩

end Searchly
